import Mathlib

/-!
Verification development for the kml-to-fgfp route extractor.

The Rust sources are shallowly embedded:
* strings are modelled as lists of characters (`Str`),
* `f64` values are modelled as exact scaled decimals (`Dec`, the value
  `man / 10 ^ exp`); every numeric token and constant in the program is a
  decimal literal, so the arithmetic the code performs (multiplication by
  the feet factor, division by 100, rounding) is exact in this model;
  parse errors are `Option.none`; the meters-to-feet rounding follows
  `f64::round` (ties away from zero) and the `as usize` cast clamps
  negative values to `0`,
* the xml-rs writer is modelled as the list of `write_event` instructions
  the code issues (element kind and the raw string handed to `write_event`),
* a Rust panic (out-of-bounds slice index) is modelled as `Option.none`.
-/

set_option maxHeartbeats 1000000

namespace KmlToFgfp

/-- Strings from the Rust source, modelled as character lists. -/
abbrev Str := List Char

/-- Coerce a Lean string literal into the `Str` model. -/
def str (s : String) : Str := s.data

/-- Rust `str::split(c)`: splits at every occurrence of `c`, keeping empty
pieces; the empty string yields one empty piece. -/
def splitOnChar (c : Char) : Str → List Str
  | [] => [[]]
  | x :: xs =>
    if x = c then [] :: splitOnChar c xs
    else
      match splitOnChar c xs with
      | [] => [[x]]
      | y :: ys => (x :: y) :: ys

/-- Rust `str::trim` (whitespace on both ends). -/
def trim (s : Str) : Str :=
  ((s.dropWhile Char.isWhitespace).reverse.dropWhile Char.isWhitespace).reverse

/-- Decimal digits read as a natural number (most significant first). -/
def digitsToNat (s : Str) : ℕ :=
  s.foldl (fun a c => 10 * a + (c.toNat - '0'.toNat)) 0

/-- Exact scaled decimal: the value `man / 10 ^ exp`.  Model of the `f64`
values flowing through the program. -/
structure Dec where
  man : ℤ
  exp : ℕ
deriving DecidableEq, Repr

/-- The rational value of a scaled decimal. -/
def Dec.toRat (d : Dec) : ℚ := (d.man : ℚ) / (10 : ℚ) ^ d.exp

/-- The `0f64` default. -/
def Dec.zero : Dec := ⟨0, 0⟩

/-- Exponent suffix of a float literal: empty, or `e`/`E`, an optional sign
and one or more digits; anything else is a parse error. -/
def applyExp (s : Str) (d : Dec) : Option Dec :=
  match s with
  | [] => some d
  | e :: rest =>
    if e = 'e' ∨ e = 'E' then
      let (eneg, rest) : Bool × Str :=
        match rest with
        | '-' :: r => (true, r)
        | '+' :: r => (false, r)
        | r => (false, r)
      let ds := rest.takeWhile Char.isDigit
      if ds = [] ∨ rest.dropWhile Char.isDigit ≠ [] then none
      else if eneg then some ⟨d.man, d.exp + digitsToNat ds⟩
      else some ⟨d.man * 10 ^ digitsToNat ds, d.exp⟩
    else none

/-- Model of Rust `f64::from_str`: optional sign, decimal digits with an
optional fractional part (at least one digit overall), optional exponent.
The special values `inf`/`NaN` are not representable in the exact model and
are omitted; no claim depends on them. -/
def parseFloat (s : Str) : Option Dec :=
  let (sgn, s) : ℤ × Str :=
    match s with
    | '-' :: r => (-1, r)
    | '+' :: r => (1, r)
    | r => (1, r)
  let ip := s.takeWhile Char.isDigit
  let rest := s.dropWhile Char.isDigit
  match rest with
  | [] => if ip = [] then none else some ⟨sgn * digitsToNat ip, 0⟩
  | '.' :: frac =>
    let fp := frac.takeWhile Char.isDigit
    let rest2 := frac.dropWhile Char.isDigit
    if ip = [] ∧ fp = [] then none
    else applyExp rest2 ⟨sgn * (digitsToNat ip * 10 ^ fp.length + digitsToNat fp), fp.length⟩
  | _ =>
    if ip = [] then none
    else applyExp rest ⟨sgn * digitsToNat ip, 0⟩

/-- Decimal rendering of a natural number. -/
def natToStr (n : ℕ) : Str := Nat.toDigits 10 n

/-- Model of Rust `format!("\x7b:.6\x7d", x)`: sign, integer digits, and
exactly six fractional digits (the magnitude rounded at the sixth place). -/
def format6 (d : Dec) : Str :=
  let p := 10 ^ d.exp
  let scaled := (2 * d.man.natAbs * 1000000 + p) / (2 * p)
  let ip := scaled / 1000000
  let fp := scaled % 1000000
  let fs := natToStr fp
  (if d.man < 0 then ['-'] else []) ++ natToStr ip ++ ['.'] ++
    List.replicate (6 - fs.length) '0' ++ fs

/-- Floor of `(2 * m + p) / (2 * p)`, i.e. `m / p` rounded to the nearest
integer with ties upward; the building block of `f64::round`. -/
def posRoundNum (m : ℤ) (p : ℕ) : ℤ := (2 * m + (p : ℤ)) / (2 * (p : ℤ))

/-- `f64::round` on a scaled decimal: nearest integer, ties away from zero. -/
def rustRound (d : Dec) : ℤ :=
  if 0 ≤ d.man then posRoundNum d.man (10 ^ d.exp)
  else -posRoundNum (-d.man) (10 ^ d.exp)

/-- Altitude conversion from `handlers.rs` lines 136-150:
`let feet = (meters * 3.280839895 / 100.0).round() * 100.0; feet as usize`.
Multiplying by `3.280839895` appends 9 to the scale and dividing by `100`
two more; the `as usize` cast truncates and clamps negatives to zero. -/
def altitude_from_meters (d : Dec) : ℕ :=
  (rustRound ⟨d.man * 3280839895, d.exp + 9 + 2⟩ * 100).toNat

/-- `route.rs` / `runner.rs`: an airport given by its ICAO code and runway. -/
structure Airport where
  ident : Str
  runway : Option Str
deriving DecidableEq, Repr

/-- `handlers.rs` lines 7-14: the accumulator for one waypoint. -/
structure Waypoint where
  number : ℕ
  ident : Str
  lon : Dec
  lat : Dec
  altitude : ℕ
deriving DecidableEq, Repr

/-- `handlers.rs` lines 25-37: the scanner state tag. -/
inductive LookingFor where
  | OpeningPlacemark
  | OpeningName
  | ContentName
  | ClosingName
  | OpeningStyleUrl
  | ContentStyleUrl
  | ClosingStyleUrl
  | OpeningCoordinates
  | ContentCoordinates
  | ClosingCoordinates
  | ClosingPlacemark
deriving DecidableEq, Repr

/-- `lib.rs` lines 244-248: the kind of instruction handed to `write_event`. -/
inductive EventType where
  | OpeningElement
  | ClosingElement
  | Content
deriving DecidableEq, Repr

/-- One `write_event` call: the kind and the raw string argument. -/
abbrev OutInstr := EventType × Str

/-- The xml-rs reader events consumed by `transform_route`: element open and
close (with the possibly namespace-prefixed name), text content, a reader
error, and the ignored remaining kinds (`_ => \x7b\x7d`). -/
inductive XmlEvent where
  | StartElement (name : Str)
  | Characters (line : Str)
  | EndElement (name : Str)
  | ReadError (msg : Str)
  | Other
deriving DecidableEq, Repr

/-- `route.rs` lines 282-291 (`simplify_name`), with the slice index made
fallible: `none` models the out-of-bounds panic.  `is_split` is `1` when the
name contains a brace and `0` otherwise, and the split list is indexed at
`is_split`. -/
def simplify_name_checked (name : Str) : Option Str :=
  let is_split : ℕ := if '\x7d' ∈ name then 1 else 0
  (splitOnChar '\x7d' name).get? is_split

/-- Total version of `simplify_name` used by the scanner; the fallback is
unreachable (`simplify_name_total` below proves the lookup always succeeds). -/
def simplify_name (name : Str) : Str :=
  match simplify_name_checked name with
  | some r => r
  | none => []

/-- `handlers.rs` lines 40-70 (`handle_start_event`).  The source is a chain
of four sequential `if` statements reading the possibly-updated state. -/
def handle_start_event (waypoint : Waypoint) (current_search : LookingFor) (drop : Bool)
    (wp : ℕ) (name : Str) : Waypoint × LookingFor × Bool :=
  -- 1. Find opening of `Placemark`
  let (waypoint, current_search, drop) :=
    if current_search = .OpeningPlacemark ∧ name = str "Placemark" then
      ({ waypoint with number := wp }, LookingFor.OpeningName, false)
    else (waypoint, current_search, drop)
  -- 2. Find opening of `name`
  let current_search :=
    if current_search = .OpeningName ∧ name = str "name" then LookingFor.ContentName
    else current_search
  -- 5. Find opening of `styleUrl`
  let current_search :=
    if current_search = .OpeningStyleUrl ∧ name = str "styleUrl" then LookingFor.ContentStyleUrl
    else current_search
  -- 8. Find opening of `coordinates`
  let current_search :=
    if current_search = .OpeningCoordinates ∧ name = str "coordinates" then
      LookingFor.ContentCoordinates
    else current_search
  (waypoint, current_search, drop)

/-- The split coordinate tokens:
`let data: Vec<&str> = line.split(',').map(|l| l.trim()).collect()`. -/
def coordsData (line : Str) : List Str := (splitOnChar ',' line).map trim

/-- One `match token.parse() \x7b Ok(d) => d, Err(e) => \x7b message = ...; 0 \x7d \x7d`
arm: the parsed value (or the zero default) and whether the parse failed. -/
def parseOr0 (t : Str) : Dec × Bool :=
  match parseFloat t with
  | some d => (d, false)
  | none => (Dec.zero, true)

/-- `handlers.rs` lines 117-161, case 9 of `handle_characters_event`: the
coordinates text.  The split results are indexed at 0, 1 and 2; `none` models
the out-of-bounds panic when fewer than three comma-separated tokens exist
(`data[0]` always exists because a split is never empty).  A failed numeric
parse overwrites `message`, so the drop flag is set exactly when at least one
of the three parses failed (the error strings are never empty). -/
def coordinates_step (waypoint : Waypoint) (drop : Bool) (line : Str) :
    Option (Waypoint × LookingFor × Bool) :=
  match (coordsData line).get? 1, (coordsData line).get? 2 with
  | some d1, some d2 =>
    let (lon, e0) := parseOr0 (coordsData line).headI
    let (lat, e1) := parseOr0 d1
    let (meters, e2) := parseOr0 d2
    let altitude := altitude_from_meters meters
    let drop := if e0 || e1 || e2 then true else drop
    some ({ waypoint with lon := lon, lat := lat, altitude := altitude },
      LookingFor.ClosingCoordinates, drop)
  | _, _ => none

/-- `handlers.rs` lines 73-164 (`handle_characters_event`).  Case 3 stores the
name text and drops placemarks duplicating a supplied airport; case 6 drops
and returns early when the styleUrl text is not `#FixMark`; case 9 parses the
coordinates.  The three cases test disjoint states, so at most one fires. -/
def handle_characters_event (waypoint : Waypoint) (current_search : LookingFor) (drop : Bool)
    (line : Str) (departure_airport destination_airport : Option Airport) :
    Option (Waypoint × LookingFor × Bool) :=
  -- 3. Find contents of `name`
  if current_search = .ContentName then
    let waypoint := { waypoint with ident := line }
    let (current_search, drop) : LookingFor × Bool :=
      match departure_airport with
      | some airport =>
        if line = airport.ident then (.ClosingPlacemark, true) else (.ClosingName, drop)
      | none => (.ClosingName, drop)
    let (current_search, drop) : LookingFor × Bool :=
      match destination_airport with
      | some airport =>
        if line = airport.ident then (.ClosingPlacemark, true) else (current_search, drop)
      | none => (current_search, drop)
    some (waypoint, current_search, drop)
  -- 6. Find contents of `styleUrl`
  else if current_search = .ContentStyleUrl then
    if line ≠ str "#FixMark" then
      -- the Placemark is not part of the route: drop and return early
      some (waypoint, LookingFor.ClosingPlacemark, true)
    else some (waypoint, LookingFor.ClosingStyleUrl, drop)
  -- 9. Find contents of `coordinates`
  else if current_search = .ContentCoordinates then
    coordinates_step waypoint drop line
  else some (waypoint, current_search, drop)

/-- `handlers.rs` lines 167-200 (`handle_end_event`).  Instead of writing to
the xml-rs writer, a committed waypoint is returned in the last component;
`transform_route` below serializes it with `write_waypoint`. -/
def handle_end_event (waypoint : Waypoint) (current_search : LookingFor) (drop : Bool)
    (wp : ℕ) (name : Str) : Waypoint × LookingFor × ℕ × List Waypoint :=
  -- 4. Find closing of `name`
  let current_search :=
    if current_search = .ClosingName ∧ name = str "name" then LookingFor.OpeningStyleUrl
    else current_search
  -- 7. Find closing of `styleUrl`
  let current_search :=
    if current_search = .ClosingStyleUrl ∧ name = str "styleUrl" then LookingFor.OpeningCoordinates
    else current_search
  -- 10. Find closing of `coordinates`
  let current_search :=
    if current_search = .ClosingCoordinates ∧ name = str "coordinates" then
      LookingFor.ClosingPlacemark
    else current_search
  -- 11. Find closing of `Placemark`
  if current_search = .ClosingPlacemark ∧ name = str "Placemark" then
    if drop then (waypoint, LookingFor.OpeningPlacemark, wp, [])
    else (waypoint, LookingFor.OpeningPlacemark, wp + 1, [waypoint])
  else (waypoint, current_search, wp, [])

/-- `route.rs` lines 247-277 (`write_waypoint`): the `write_event`
instructions issued for one committed waypoint.  The opening string carries
` n=<number>` exactly when the number is positive. -/
def write_waypoint (wp : Waypoint) : List OutInstr :=
  let number : Str := if wp.number > 0 then str " n=" ++ natToStr wp.number else []
  let opening : Str := str "wp" ++ number
  [(.OpeningElement, opening),
   (.OpeningElement, str "type type=string"), (.Content, str "basic"),
   (.ClosingElement, str "type"),
   (.OpeningElement, str "ident type=string"), (.Content, wp.ident),
   (.ClosingElement, str "ident"),
   (.OpeningElement, str "lon type=double"), (.Content, format6 wp.lon),
   (.ClosingElement, str "lon"),
   (.OpeningElement, str "lat type=double"), (.Content, format6 wp.lat),
   (.ClosingElement, str "lat"),
   (.ClosingElement, str "wp")]

/-- The four loose variables `transform_route` threads through the handlers
(`route.rs` lines 27-38): the state tag, the accepted count `wp`, the drop
flag and the waypoint accumulator. -/
structure ScanState where
  current_search : LookingFor
  wp : ℕ
  drop : Bool
  waypoint : Waypoint
deriving DecidableEq, Repr

/-- The initial scan state (`route.rs` lines 27-38). -/
def initState : ScanState :=
  ⟨.OpeningPlacemark, 0, false, ⟨0, [], Dec.zero, Dec.zero, 0⟩⟩

/-- One iteration of the `transform_route` event loop: the successor state,
the waypoints committed by this event, and whether the loop breaks (a reader
error).  `none` models a panic inside a handler. -/
def stepEvent (departure_airport destination_airport : Option Airport) (s : ScanState)
    (e : XmlEvent) : Option (ScanState × List Waypoint × Bool) :=
  match e with
  | .StartElement name =>
    let name := simplify_name name
    let (waypoint, current_search, drop) :=
      handle_start_event s.waypoint s.current_search s.drop s.wp name
    some (⟨current_search, s.wp, drop, waypoint⟩, [], false)
  | .Characters line =>
    match handle_characters_event s.waypoint s.current_search s.drop line
        departure_airport destination_airport with
    | some (waypoint, current_search, drop) =>
      some (⟨current_search, s.wp, drop, waypoint⟩, [], false)
    | none => none
  | .EndElement name =>
    let name := simplify_name name
    let (waypoint, current_search, wp, emitted) :=
      handle_end_event s.waypoint s.current_search s.drop s.wp name
    some (⟨current_search, wp, s.drop, waypoint⟩, emitted, false)
  | .ReadError _ =>
    -- `Err(e) => \x7b eprintln; break \x7d`: log to stderr and stop consuming
    some (s, [], true)
  | .Other => some (s, [], false)

/-- The `transform_route` event loop: the final state, the committed
waypoints in order, and whether a handler panicked. -/
def scan (departure_airport destination_airport : Option Airport) :
    ScanState → List XmlEvent → ScanState × List Waypoint × Bool
  | s, [] => (s, [], false)
  | s, e :: es =>
    match stepEvent departure_airport destination_airport s e with
    | none => (s, [], true)
    | some (s2, emitted, brk) =>
      if brk then (s2, emitted, false)
      else
        let (s3, rest, panicked) := scan departure_airport destination_airport s2 es
        (s3, emitted ++ rest, panicked)

/-- `route.rs` lines 21-74 (`transform_route`), with the airport arguments the
handlers of `handlers.rs` take (threaded through from `runner.rs`): opens the
`route` container, folds the scanner over the events — serializing every
committed waypoint at once via `write_waypoint` — and closes the container.
`none` models the process abort when a handler panics. -/
def transform_route (departure_airport destination_airport : Option Airport)
    (events : List XmlEvent) : Option (List OutInstr) :=
  let (_, committed, panicked) :=
    scan departure_airport destination_airport initState events
  if panicked then none
  else
    some ((.OpeningElement, str "route") :: (committed.map write_waypoint).flatten ++
      [(.ClosingElement, str "route")])

/-- The waypoints committed from a given state until the scanner first
returns to `OpeningPlacemark` (i.e. until the current placemark closes);
a break or panic ends the placemark with nothing further committed. -/
def committedUntilReopen (departure_airport destination_airport : Option Airport) :
    ScanState → List XmlEvent → List Waypoint
  | _, [] => []
  | s, e :: es =>
    match stepEvent departure_airport destination_airport s e with
    | none => []
    | some (s2, emitted, brk) =>
      emitted ++
        (if brk ∨ s2.current_search = .OpeningPlacemark then []
         else committedUntilReopen departure_airport destination_airport s2 es)

/-- `lib.rs` lines 18-38 (`write_start_of_tree`). -/
def write_start_of_tree : List OutInstr :=
  [(.OpeningElement, str "PropertyList"),
   (.OpeningElement, str "version type=int"), (.Content, str "2"),
   (.ClosingElement, str "version"),
   (.OpeningElement, str "flight-rules type=string"), (.Content, str "V"),
   (.ClosingElement, str "flight-rules"),
   (.OpeningElement, str "flight-type type=string"), (.Content, str "X"),
   (.ClosingElement, str "flight-type"),
   (.OpeningElement, str "estimated-duration-minutes type=int"), (.Content, str "0"),
   (.ClosingElement, str "estimated-duration-minutes")]

/-- `lib.rs` lines 70-88 (`write_airport_details`): a code of the form
`ICAO/RUNWAY` yields `airport` and `runway` sub-elements, a bare code only
`airport`.  A slash guarantees the split has a second piece, so the
unreachable fallback returns the empty element list. -/
def write_airport_details (code : Str) : List OutInstr :=
  if '/' ∈ code then
    match splitOnChar '/' code with
    | e0 :: e1 :: _ =>
      [(.OpeningElement, str "airport type=string"), (.Content, e0),
       (.ClosingElement, str "airport"),
       (.OpeningElement, str "runway type=string"), (.Content, e1),
       (.ClosingElement, str "runway")]
    | _ => []
  else
    [(.OpeningElement, str "airport type=string"), (.Content, code),
     (.ClosingElement, str "airport")]

/-- `lib.rs` lines 49-67 (`write_airports`): the optional `departure` and
`destination` elements, written before the route container. -/
def write_airports (departure arrival : Option Str) : List OutInstr :=
  (match departure with
   | some code =>
     (.OpeningElement, str "departure") :: write_airport_details code ++
       [(.ClosingElement, str "departure")]
   | none => []) ++
  (match arrival with
   | some code =>
     (.OpeningElement, str "destination") :: write_airport_details code ++
       [(.ClosingElement, str "destination")]
   | none => [])

/-- `lib.rs` lines 233-237 (`close_tree`). -/
def close_tree : List OutInstr := [(.ClosingElement, str "PropertyList")]

/-- `runner.rs` lines 110-122 (`airport_decoder`): `ident` starts as the
literal `"ICAO"` and `runway` as `None`; only a code containing `/` overwrites
them with the trimmed pieces around the slash.  A slash guarantees two split
pieces, so the fallback branch is unreachable. -/
def airport_decoder (code : Str) : Airport :=
  if '/' ∈ code then
    match (splitOnChar '/' code).map trim with
    | d0 :: d1 :: _ => ⟨d0, some d1⟩
    | _ => ⟨str "ICAO", none⟩
  else ⟨str "ICAO", none⟩

/-- `runner.rs` lines 76-106 (`run`): start of tree, airports, route,
closing — with the airport codes decoded once and passed both to
`write_airports` (as raw codes, per `lib.rs`) and to the scanner handlers. -/
def run_pipeline (departure destination : Option Str) (events : List XmlEvent) :
    Option (List OutInstr) :=
  match transform_route (departure.map airport_decoder) (destination.map airport_decoder)
      events with
  | some routeOut =>
    some (write_start_of_tree ++ write_airports departure destination ++ routeOut ++ close_tree)
  | none => none

/-- The instructions strictly between the opening and closing of the `route`
container element. -/
def routeContents (out : List OutInstr) : List OutInstr :=
  ((out.dropWhile (· ≠ (.OpeningElement, str "route"))).drop 1).takeWhile
    (· ≠ (.ClosingElement, str "route"))

/-- The value `simplify_name` produces: the input itself when it has no
closing brace, otherwise the characters strictly after the first closing
brace and before the next one (if any). -/
def simplified_value (s : Str) : Str :=
  if '\x7d' ∈ s then ((s.dropWhile (· != '\x7d')).drop 1).takeWhile (· != '\x7d')
  else s

/-- The altitude formula in the spec's words:
`feet = round((meters * 3.280839895) / 100) * 100`, stored as a non-negative
integer; stated over exact rationals with Mathlib's `round`. -/
def spec_altitude_feet (m : ℚ) : ℕ :=
  (round (m * (3280839895 / 1000000000 : ℚ) / 100) * 100).toNat

/-- The numbering invariant carried across the scan: either no placemark is
open, or the current one is dropped, or its number is the running count. -/
def NumInv (s : ScanState) : Prop :=
  s.current_search = .OpeningPlacemark ∨ s.drop = true ∨ s.waypoint.number = s.wp

/-- A field element in the shape the spec describes: opening tag (with its
attribute text), content, closing tag. -/
def fieldElement (name attrs content : Str) : List OutInstr :=
  [(.OpeningElement, name ++ attrs), (.Content, content), (.ClosingElement, name)]

/-- The output shape the claim asserts for a committed waypoint: the `wp`
element opening (numbered from 1 on), the `type`, `ident`, `lon`, `lat`
fields in order, an altitude field, and the closing of `wp`. -/
def claimedWaypointShape (w : Waypoint) : Prop :=
  ∃ altField : List OutInstr, altField ≠ [] ∧
    write_waypoint w =
      (.OpeningElement, str "wp" ++ (if w.number > 0 then str " n=" ++ natToStr w.number else [])) ::
        (fieldElement (str "type") (str " type=string") (str "basic") ++
         fieldElement (str "ident") (str " type=string") w.ident ++
         fieldElement (str "lon") (str " type=double") (format6 w.lon) ++
         fieldElement (str "lat") (str " type=double") (format6 w.lat) ++
         altField ++ [(.ClosingElement, str "wp")])


/-! ### Properties of the name normalizer -/

lemma splitOnChar_ne_nil (c : Char) (s : Str) : splitOnChar c s ≠ [] := by
  cases s with
  | nil => simp [splitOnChar]
  | cons x xs =>
    unfold splitOnChar
    split_ifs
    · simp
    · cases h : splitOnChar c xs <;> simp

lemma splitOnChar_head (c : Char) (s : Str) :
    (splitOnChar c s).head? = some (s.takeWhile (· != c)) := by
  induction s with
  | nil => simp [splitOnChar]
  | cons x xs ih =>
    unfold splitOnChar
    split_ifs with h
    · subst h; simp [List.takeWhile_cons]
    · cases hs : splitOnChar c xs with
      | nil => exact absurd hs (splitOnChar_ne_nil c xs)
      | cons y ys =>
        rw [hs] at ih
        simp at ih
        simp [List.takeWhile_cons, h, ih]

lemma splitOnChar_not_mem (c : Char) (s : Str) (h : c ∉ s) : splitOnChar c s = [s] := by
  induction s with
  | nil => simp [splitOnChar]
  | cons x xs ih =>
    simp at h
    unfold splitOnChar
    rw [if_neg (fun hx => h.1 hx.symm)]
    rw [ih h.2]

lemma splitOnChar_get_one (c : Char) (s : Str) (h : c ∈ s) :
    (splitOnChar c s).get? 1 =
      some (((s.dropWhile (· != c)).drop 1).takeWhile (· != c)) := by
  induction s with
  | nil => cases h
  | cons x xs ih =>
    by_cases hx : x = c
    · subst hx
      unfold splitOnChar
      rw [if_pos rfl]
      simp only [List.get?_eq_getElem?, List.getElem?_cons_succ, List.getElem?_cons_zero]
      rw [List.dropWhile_cons]
      simp only [bne_self_eq_false, Bool.false_eq_true, if_false, List.drop_succ_cons,
        List.drop_zero]
      rw [← List.head?_eq_getElem?]
      exact splitOnChar_head x xs
    · have hmem : c ∈ xs := by
        rcases List.mem_cons.1 h with h1 | h1
        · exact absurd h1.symm hx
        · exact h1
      unfold splitOnChar
      rw [if_neg hx]
      cases hs : splitOnChar c xs with
      | nil => exact absurd hs (splitOnChar_ne_nil c xs)
      | cons y ys =>
        have := ih hmem
        rw [hs] at this
        simp at this ⊢
        rw [List.dropWhile_cons]
        simp [hx, this]

lemma simplify_name_checked_spec (s : Str) :
    simplify_name_checked s = some (simplified_value s) := by
  unfold simplify_name_checked simplified_value
  by_cases h : '\x7d' ∈ s
  · simp only [h, if_pos, if_true]
    exact splitOnChar_get_one '\x7d' s h
  · simp only [h, if_neg, if_false]
    rw [splitOnChar_not_mem '\x7d' s h]
    simp

lemma simplify_name_eq (s : Str) : simplify_name s = simplified_value s := by
  unfold simplify_name
  rw [simplify_name_checked_spec]

/-! ### Altitude conversion versus the spec formula -/

lemma posRoundNum_eq_floor (m : ℤ) (p : ℕ) (hp : 0 < p) :
    posRoundNum m p = ⌊(m : ℚ) / (p : ℚ) + 1 / 2⌋ := by
  have hp0 : ((p : ℚ)) ≠ 0 := by positivity
  have key : (m : ℚ) / (p : ℚ) + 1 / 2 = ((2 * m + (p : ℤ) : ℤ) : ℚ) / ((2 * p : ℕ) : ℚ) := by
    push_cast
    field_simp
    ring
  rw [key, Rat.floor_intCast_div_natCast]
  unfold posRoundNum
  push_cast
  ring_nf

lemma rustRound_eq_round_of_nonneg (d : Dec) (h : 0 ≤ d.man) :
    rustRound d = round d.toRat := by
  unfold rustRound
  rw [if_pos h, round_eq, Dec.toRat]
  rw [posRoundNum_eq_floor d.man (10 ^ d.exp) (by positivity)]
  push_cast
  ring_nf

lemma rustRound_nonpos (d : Dec) (h : d.man < 0) : rustRound d ≤ 0 := by
  unfold rustRound
  rw [if_neg (not_le.2 h)]
  have hnn : 0 ≤ posRoundNum (-d.man) (10 ^ d.exp) := by
    unfold posRoundNum
    apply Int.ediv_nonneg
    · have hp : (0:ℤ) ≤ ((10 ^ d.exp : ℕ) : ℤ) := by positivity
      omega
    · positivity
  omega

lemma round_toRat_nonpos (d : Dec) (h : d.man < 0) : round d.toRat ≤ 0 := by
  have hq : d.toRat < 0 := by
    unfold Dec.toRat
    apply div_neg_of_neg_of_pos
    · exact_mod_cast h
    · positivity
  rw [round_eq]
  have h1 : d.toRat + 1 / 2 ≤ 1 / 2 := by linarith
  calc ⌊d.toRat + 1 / 2⌋ ≤ ⌊(1 / 2 : ℚ)⌋ := Int.floor_le_floor h1
    _ = 0 := by norm_num

lemma altitude_matches_spec (d : Dec) :
    altitude_from_meters d = spec_altitude_feet d.toRat := by
  unfold altitude_from_meters spec_altitude_feet
  set e : Dec := ⟨d.man * 3280839895, d.exp + 9 + 2⟩ with he
  have hval : d.toRat * (3280839895 / 1000000000 : ℚ) / 100 = e.toRat := by
    rw [he]
    unfold Dec.toRat
    have hten : ((10:ℚ)) ^ (d.exp + 9 + 2) = (10:ℚ)^d.exp * 1000000000 * 100 := by
      rw [pow_add, pow_add]; norm_num
    push_cast
    rw [hten]
    have h1 : ((10:ℚ))^d.exp ≠ 0 := by positivity
    field_simp
  rw [hval]
  rcases le_or_lt 0 e.man with hm | hm
  · rw [rustRound_eq_round_of_nonneg e hm]
  · have h1 := rustRound_nonpos e hm
    have h2 := round_toRat_nonpos e hm
    have e1 : rustRound e * 100 ≤ 0 := by nlinarith
    have e2 : round e.toRat * 100 ≤ 0 := by nlinarith
    rw [Int.toNat_eq_zero.2 e1, Int.toNat_eq_zero.2 e2]

/-! ### Sequence numbering of committed waypoints -/

lemma handle_start_inv (w : Waypoint) (cs : LookingFor) (d : Bool) (wp : ℕ) (name : Str)
    (h : cs = .OpeningPlacemark ∨ d = true ∨ w.number = wp) :
    (handle_start_event w cs d wp name).2.1 = .OpeningPlacemark ∨
      (handle_start_event w cs d wp name).2.2 = true ∨
      (handle_start_event w cs d wp name).1.number = wp := by
  rcases h with h | h | h <;> unfold handle_start_event <;> split_ifs <;> simp_all

lemma coordinates_step_frame (w : Waypoint) (d : Bool) (line : Str) (w2 : Waypoint)
    (cs2 : LookingFor) (d2 : Bool) (h : coordinates_step w d line = some (w2, cs2, d2)) :
    w2.number = w.number ∧ (d2 = d ∨ d2 = true) := by
  unfold coordinates_step at h
  rcases hd1 : (coordsData line).get? 1 with _ | t1 <;>
    rcases hd2 : (coordsData line).get? 2 with _ | t2 <;> rw [hd1, hd2] at h <;>
      simp only [] at h
  · cases h
  · cases h
  · cases h
  rcases hp0 : parseOr0 (coordsData line).headI with ⟨v0, f0⟩
  rcases hp1 : parseOr0 t1 with ⟨v1, f1⟩
  rcases hp2 : parseOr0 t2 with ⟨v2, f2⟩
  rw [hp0, hp1, hp2] at h
  simp at h
  obtain ⟨hw, hcs, hd⟩ := h
  subst hw
  subst hcs
  subst hd
  refine ⟨rfl, ?_⟩
  cases f0 <;> cases f1 <;> cases f2 <;> cases d <;> simp

lemma handle_chars_frame (w : Waypoint) (cs : LookingFor) (d : Bool) (line : Str)
    (dep dest : Option Airport) (w2 : Waypoint) (cs2 : LookingFor) (d2 : Bool)
    (h : handle_characters_event w cs d line dep dest = some (w2, cs2, d2)) :
    w2.number = w.number ∧ (d2 = d ∨ d2 = true) ∧
      (cs = .OpeningPlacemark → w2 = w ∧ cs2 = cs ∧ d2 = d) := by
  cases cs
  case ContentName =>
    unfold handle_characters_event at h
    rw [if_pos rfl] at h
    rcases dep with _ | a <;> rcases dest with _ | b <;> simp only [] at h <;>
      try split_ifs at h
    all_goals simp at h
    all_goals (obtain ⟨hw, hcs, hd⟩ := h; subst hw; subst hcs; simp_all)
  case ContentStyleUrl =>
    unfold handle_characters_event at h
    rw [if_neg (by simp), if_pos rfl] at h
    split_ifs at h <;> simp at h <;>
      (obtain ⟨hw, hcs, hd⟩ := h; subst hw; subst hcs; simp_all)
  case ContentCoordinates =>
    unfold handle_characters_event at h
    rw [if_neg (by simp), if_neg (by simp), if_pos rfl] at h
    obtain ⟨hnum, hdrop⟩ := coordinates_step_frame w d line w2 cs2 d2 h
    exact ⟨hnum, hdrop, by simp⟩
  all_goals
    (unfold handle_characters_event at h
     rw [if_neg (by simp), if_neg (by simp), if_neg (by simp)] at h
     simp at h
     obtain ⟨hw, hcs, hd⟩ := h
     subst hw
     subst hcs
     simp_all)

lemma range1_append (a m n : ℕ) :
    List.range' a m ++ List.range' (a + m) n = List.range' a (m + n) := by
  have h := List.range'_append a m n 1
  rw [one_mul] at h
  rw [Nat.add_comm n m] at h
  exact h

lemma handle_end_eq_other (w : Waypoint) (cs : LookingFor) (d : Bool) (wp : ℕ) (name : Str)
    (h1 : cs ≠ .ClosingName) (h2 : cs ≠ .ClosingStyleUrl) (h3 : cs ≠ .ClosingCoordinates)
    (h4 : cs ≠ .ClosingPlacemark) :
    handle_end_event w cs d wp name = (w, cs, wp, []) := by
  unfold handle_end_event
  split_ifs <;> simp_all

lemma handle_end_eq_closingName (w : Waypoint) (d : Bool) (wp : ℕ) (name : Str) :
    handle_end_event w .ClosingName d wp name =
      if name = str "name" then (w, .OpeningStyleUrl, wp, [])
      else (w, .ClosingName, wp, []) := by
  unfold handle_end_event
  split_ifs <;> simp_all

lemma handle_end_eq_closingStyleUrl (w : Waypoint) (d : Bool) (wp : ℕ) (name : Str) :
    handle_end_event w .ClosingStyleUrl d wp name =
      if name = str "styleUrl" then (w, .OpeningCoordinates, wp, [])
      else (w, .ClosingStyleUrl, wp, []) := by
  unfold handle_end_event
  split_ifs <;> simp_all

lemma handle_end_eq_closingCoordinates (w : Waypoint) (d : Bool) (wp : ℕ) (name : Str) :
    handle_end_event w .ClosingCoordinates d wp name =
      if name = str "coordinates" then (w, .ClosingPlacemark, wp, [])
      else (w, .ClosingCoordinates, wp, []) := by
  unfold handle_end_event
  split_ifs <;> simp_all [show str "coordinates" ≠ str "Placemark" from by decide]

lemma handle_end_eq_closingPlacemark (w : Waypoint) (d : Bool) (wp : ℕ) (name : Str) :
    handle_end_event w .ClosingPlacemark d wp name =
      if name = str "Placemark" then
        (if d then (w, .OpeningPlacemark, wp, []) else (w, .OpeningPlacemark, wp + 1, [w]))
      else (w, .ClosingPlacemark, wp, []) := by
  unfold handle_end_event
  split_ifs <;> simp_all

lemma handle_end_spec (w : Waypoint) (cs : LookingFor) (d : Bool) (wp : ℕ) (name : Str)
    (h : cs = .OpeningPlacemark ∨ d = true ∨ w.number = wp) :
    (handle_end_event w cs d wp name).2.2.2.map Waypoint.number
        = List.range' wp (handle_end_event w cs d wp name).2.2.2.length ∧
      (handle_end_event w cs d wp name).2.2.1
        = wp + (handle_end_event w cs d wp name).2.2.2.length ∧
      ((handle_end_event w cs d wp name).2.1 = .OpeningPlacemark ∨ d = true ∨
        (handle_end_event w cs d wp name).1.number = (handle_end_event w cs d wp name).2.2.1) := by
  cases cs
  case ClosingName =>
    rw [handle_end_eq_closingName]
    split_ifs <;> simp_all
  case ClosingStyleUrl =>
    rw [handle_end_eq_closingStyleUrl]
    split_ifs <;> simp_all
  case ClosingCoordinates =>
    rw [handle_end_eq_closingCoordinates]
    split_ifs <;> simp_all
  case ClosingPlacemark =>
    rw [handle_end_eq_closingPlacemark]
    split_ifs with h1 h2 <;> simp_all [List.range']
  all_goals
    (rw [handle_end_eq_other w _ d wp name (by simp) (by simp) (by simp) (by simp)]
     simp_all)

lemma stepEvent_numbers (dep dest : Option Airport) (s : ScanState) (e : XmlEvent)
    (h : NumInv s) (s2 : ScanState) (em : List Waypoint) (brk : Bool)
    (hst : stepEvent dep dest s e = some (s2, em, brk)) :
    em.map Waypoint.number = List.range' s.wp em.length ∧
      s2.wp = s.wp + em.length ∧ NumInv s2 := by
  cases e with
  | StartElement name =>
    unfold stepEvent at hst
    dsimp only at hst
    rcases hh : handle_start_event s.waypoint s.current_search s.drop s.wp
        (simplify_name name) with ⟨w2, cs2, d2⟩
    rw [hh] at hst
    simp at hst
    obtain ⟨hs2, hem, hbrk⟩ := hst
    subst hs2; subst hem
    have := handle_start_inv s.waypoint s.current_search s.drop s.wp (simplify_name name) h
    rw [hh] at this
    simp at this
    exact ⟨by simp, by simp, this⟩
  | Characters line =>
    unfold stepEvent at hst
    dsimp only at hst
    rcases hh : handle_characters_event s.waypoint s.current_search s.drop line dep dest
        with _ | ⟨w2, cs2, d2⟩
    · rw [hh] at hst; cases hst
    · rw [hh] at hst
      simp at hst
      obtain ⟨hs2, hem, hbrk⟩ := hst
      subst hs2; subst hem
      obtain ⟨hnum, hdrop, hid⟩ :=
        handle_chars_frame s.waypoint s.current_search s.drop line dep dest w2 cs2 d2 hh
      refine ⟨by simp, by simp, ?_⟩
      rcases h with h | h | h
      · obtain ⟨hw, hcs, hd⟩ := hid h
        subst hw; subst hcs; subst hd
        exact Or.inl h
      · rcases hdrop with h2 | h2
        · exact Or.inr (Or.inl (h2.trans h))
        · exact Or.inr (Or.inl h2)
      · exact Or.inr (Or.inr (hnum.trans h))
  | EndElement name =>
    unfold stepEvent at hst
    dsimp only at hst
    rcases hh : handle_end_event s.waypoint s.current_search s.drop s.wp
        (simplify_name name) with ⟨w2, cs2, wp2, em2⟩
    rw [hh] at hst
    simp at hst
    obtain ⟨hs2, hem, hbrk⟩ := hst
    subst hs2; subst hem
    have := handle_end_spec s.waypoint s.current_search s.drop s.wp (simplify_name name) h
    rw [hh] at this
    simp at this
    obtain ⟨hmap, hwp, hinv⟩ := this
    exact ⟨hmap, hwp, hinv⟩
  | ReadError msg =>
    unfold stepEvent at hst
    dsimp only at hst
    simp at hst
    obtain ⟨hs2, hem, hbrk⟩ := hst
    subst hs2; subst hem
    exact ⟨by simp, by simp, h⟩
  | Other =>
    unfold stepEvent at hst
    dsimp only at hst
    simp at hst
    obtain ⟨hs2, hem, hbrk⟩ := hst
    subst hs2; subst hem
    exact ⟨by simp, by simp, h⟩

lemma scan_numbers (dep dest : Option Airport) :
    ∀ (es : List XmlEvent) (s : ScanState), NumInv s →
      ((scan dep dest s es).2.1).map Waypoint.number
          = List.range' s.wp ((scan dep dest s es).2.1).length ∧
        (scan dep dest s es).1.wp = s.wp + ((scan dep dest s es).2.1).length := by
  intro es
  induction es with
  | nil => intro s h; simp [scan]
  | cons e es ih =>
    intro s h
    unfold scan
    rcases hst : stepEvent dep dest s e with _ | ⟨s2, em, brk⟩
    · simp
    · obtain ⟨hmap, hwp, hinv⟩ := stepEvent_numbers dep dest s e h s2 em brk hst
      cases brk
      · rcases hs3 : scan dep dest s2 es with ⟨s3, rest, p⟩
        have ihh := ih s2 hinv
        rw [hs3] at ihh
        simp at ihh
        obtain ⟨ihmap, ihwp⟩ := ihh
        simp [hs3]
        constructor
        · rw [hmap, ihmap, hwp, range1_append]
        · rw [ihwp, hwp]
          omega
      · simp
        exact ⟨hmap, hwp⟩

/-! ### A dropped placemark commits nothing until it closes -/

lemma stepEvent_dropped (dep dest : Option Airport) (wp : ℕ) (w : Waypoint) (e : XmlEvent) :
    ∃ s2 brk, stepEvent dep dest ⟨.ClosingPlacemark, wp, true, w⟩ e = some (s2, [], brk) ∧
      (s2 = ⟨.ClosingPlacemark, wp, true, w⟩ ∨ s2 = ⟨.OpeningPlacemark, wp, true, w⟩) := by
  cases e with
  | StartElement name =>
    refine ⟨⟨.ClosingPlacemark, wp, true, w⟩, false, ?_, Or.inl rfl⟩
    simp [stepEvent, handle_start_event]
  | Characters line =>
    refine ⟨⟨.ClosingPlacemark, wp, true, w⟩, false, ?_, Or.inl rfl⟩
    simp [stepEvent, handle_characters_event]
  | EndElement name =>
    by_cases h : simplify_name name = str "Placemark"
    · refine ⟨⟨.OpeningPlacemark, wp, true, w⟩, false, ?_, Or.inr rfl⟩
      simp [stepEvent, handle_end_event, h]
    · refine ⟨⟨.ClosingPlacemark, wp, true, w⟩, false, ?_, Or.inl rfl⟩
      simp [stepEvent, handle_end_event, h]
  | ReadError msg =>
    exact ⟨⟨.ClosingPlacemark, wp, true, w⟩, true, by simp [stepEvent], Or.inl rfl⟩
  | Other =>
    exact ⟨⟨.ClosingPlacemark, wp, true, w⟩, false, by simp [stepEvent], Or.inl rfl⟩

lemma committedUntilReopen_dropped (dep dest : Option Airport) (wp : ℕ) (w : Waypoint) :
    ∀ es : List XmlEvent,
      committedUntilReopen dep dest ⟨.ClosingPlacemark, wp, true, w⟩ es = [] := by
  intro es
  induction es with
  | nil => rfl
  | cons e es ih =>
    obtain ⟨s2, brk, hstep, hs2⟩ := stepEvent_dropped dep dest wp w e
    unfold committedUntilReopen
    rw [hstep]
    rcases hs2 with h | h <;> subst h <;> simp [ih]

/-! ### The scan stops at a read error but the route is closed -/

lemma scan_readError (dep dest : Option Airport) :
    ∀ (pre : List XmlEvent) (s : ScanState) (msg : Str) (post : List XmlEvent),
      scan dep dest s (pre ++ XmlEvent.ReadError msg :: post)
        = scan dep dest s (pre ++ [XmlEvent.ReadError msg]) := by
  intro pre
  induction pre with
  | nil =>
    intro s msg post
    simp [scan, stepEvent]
  | cons e pre ih =>
    intro s msg post
    simp only [List.cons_append]
    unfold scan
    rcases hst : stepEvent dep dest s e with _ | ⟨s2, em, brk⟩
    · simp [hst]
    · cases brk
      · simp only [hst]
        rw [ih s2 msg post]
      · simp [hst]

lemma transform_route_last (dep dest : Option Airport) (events : List XmlEvent)
    (out : List OutInstr) (h : transform_route dep dest events = some out) :
    out.getLast? = some (.ClosingElement, str "route") := by
  unfold transform_route at h
  rcases hs : scan dep dest initState events with ⟨s3, committed, panicked⟩
  rw [hs] at h
  cases panicked
  · simp at h
    rw [← h]
    rw [← List.cons_append, List.getLast?_concat]
  · simp at h

/-! ### Claim theorems -/

/-- **C4**: a placemark whose styleUrl text is not exactly `#FixMark` never
appears in the output: on that text the characters handler leaves the waypoint
untouched (skipping coordinate processing), sets the Drop Flag and jumps
directly to `ClosingPlacemark`; and from that dropped state no waypoint is
committed for the rest of the placemark, whatever events follow. -/
theorem C4_non_fixmark_dropped (w : Waypoint) (d : Bool) (line : Str)
    (dep dest : Option Airport) (wp : ℕ) (h : line ≠ str "#FixMark") :
    handle_characters_event w .ContentStyleUrl d line dep dest
        = some (w, .ClosingPlacemark, true) ∧
      ∀ es : List XmlEvent,
        committedUntilReopen dep dest ⟨.ClosingPlacemark, wp, true, w⟩ es = [] := by
  refine ⟨?_, committedUntilReopen_dropped dep dest wp w⟩
  simp [handle_characters_event, h]

theorem C4_witness :
    (str "#x" ≠ str "#FixMark") ∧
    handle_characters_event ⟨0, [], Dec.zero, Dec.zero, 0⟩ .ContentStyleUrl false (str "#x")
        none none = some (⟨0, [], Dec.zero, Dec.zero, 0⟩, .ClosingPlacemark, true) ∧
    committedUntilReopen none none ⟨.ClosingPlacemark, 0, true, ⟨0, [], Dec.zero, Dec.zero, 0⟩⟩
        [XmlEvent.Characters (str "1,2,3"), XmlEvent.EndElement (str "Placemark")] = [] :=
  ⟨by decide,
   (C4_non_fixmark_dropped ⟨0, [], Dec.zero, Dec.zero, 0⟩ false (str "#x") none none 0
      (by decide)).1,
   (C4_non_fixmark_dropped ⟨0, [], Dec.zero, Dec.zero, 0⟩ false (str "#x") none none 0
      (by decide)).2 _⟩

/-- **C5**: a placemark whose name text equals the identifier of a supplied
departure or destination airport never appears as a waypoint in the output:
the characters handler stores the name, sets the Drop Flag and jumps directly
to `ClosingPlacemark`, and from that dropped state no waypoint is committed
for the rest of the placemark. -/
theorem C5_airport_name_dropped (w : Waypoint) (d : Bool) (line : Str)
    (dep dest : Option Airport) (wp : ℕ)
    (h : (∃ a, dep = some a ∧ line = a.ident) ∨ (∃ a, dest = some a ∧ line = a.ident)) :
    handle_characters_event w .ContentName d line dep dest
        = some ({ w with ident := line }, .ClosingPlacemark, true) ∧
      ∀ es : List XmlEvent,
        committedUntilReopen dep dest ⟨.ClosingPlacemark, wp, true, { w with ident := line }⟩
          es = [] := by
  refine ⟨?_, committedUntilReopen_dropped dep dest wp _⟩
  rcases h with ⟨a, ha, hl⟩ | ⟨a, ha, hl⟩
  · subst ha; subst hl
    rcases dest with _ | b
    · simp [handle_characters_event]
    · by_cases hb : a.ident = b.ident <;> simp [handle_characters_event, hb]
  · subst ha; subst hl
    rcases dep with _ | b
    · simp [handle_characters_event]
    · by_cases hb : a.ident = b.ident <;> simp [handle_characters_event, hb]

theorem C5_witness :
    ((∃ a, (some (Airport.mk (str "SAEZ") (some (str "11"))) = some a ∧ str "SAEZ" = a.ident)) ∨
      (∃ a, ((none : Option Airport) = some a ∧ str "SAEZ" = a.ident))) ∧
    handle_characters_event ⟨0, [], Dec.zero, Dec.zero, 0⟩ .ContentName false (str "SAEZ")
        (some (Airport.mk (str "SAEZ") (some (str "11")))) none
      = some (⟨0, str "SAEZ", Dec.zero, Dec.zero, 0⟩, .ClosingPlacemark, true) ∧
    committedUntilReopen (some (Airport.mk (str "SAEZ") (some (str "11")))) none
        ⟨.ClosingPlacemark, 0, true, ⟨0, str "SAEZ", Dec.zero, Dec.zero, 0⟩⟩
        [XmlEvent.EndElement (str "Placemark")] = [] :=
  ⟨Or.inl ⟨Airport.mk (str "SAEZ") (some (str "11")), rfl, rfl⟩,
   (C5_airport_name_dropped ⟨0, [], Dec.zero, Dec.zero, 0⟩ false (str "SAEZ")
      (some (Airport.mk (str "SAEZ") (some (str "11")))) none 0
      (Or.inl ⟨Airport.mk (str "SAEZ") (some (str "11")), rfl, rfl⟩)).1,
   (C5_airport_name_dropped ⟨0, [], Dec.zero, Dec.zero, 0⟩ false (str "SAEZ")
      (some (Airport.mk (str "SAEZ") (some (str "11")))) none 0
      (Or.inl ⟨Airport.mk (str "SAEZ") (some (str "11")), rfl, rfl⟩)).2 _⟩

/-- **C3**: for every input event stream (and any supplied airports), the
sequence numbers of the committed waypoints are exactly `0, 1, 2, ...` — a
contiguous range from 0 with no reuse and no gap, however many intervening
placemarks were dropped.  (No departure airport waypoint ever occupies slot 0
in this code — see C7 — so the numbering always starts at 0.) -/
theorem C3_sequence_numbers_contiguous (dep dest : Option Airport) (events : List XmlEvent) :
    ((scan dep dest initState events).2.1).map Waypoint.number
      = List.range ((scan dep dest initState events).2.1).length := by
  have h := (scan_numbers dep dest events initState (Or.inl rfl)).1
  rw [List.range_eq_range']
  simpa [initState] using h

/-- **C9**: a reader-level read error stops the scan — events after the first
`ReadError` have no effect on the output — and the route container is still
closed: any produced output ends with the closing `route` element, so the
document is completed rather than the conversion aborting.  (The `eprintln`
log is outside the pure model.) -/
theorem C9_read_error_closes_route (dep dest : Option Airport) (pre post : List XmlEvent)
    (msg : Str) :
    transform_route dep dest (pre ++ XmlEvent.ReadError msg :: post)
        = transform_route dep dest (pre ++ [XmlEvent.ReadError msg]) ∧
      ∀ out, transform_route dep dest (pre ++ XmlEvent.ReadError msg :: post) = some out →
        out.getLast? = some (.ClosingElement, str "route") := by
  constructor
  · unfold transform_route
    rw [scan_readError]
  · intro out hout
    exact transform_route_last dep dest _ out hout

theorem C9_witness :
    transform_route none none ([] ++ XmlEvent.ReadError [] :: [XmlEvent.Other])
        = transform_route none none ([] ++ [XmlEvent.ReadError []]) ∧
      ([(.OpeningElement, str "route"), (.ClosingElement, str "route")] : List OutInstr).getLast?
        = some (.ClosingElement, str "route") :=
  ⟨(C9_read_error_closes_route none none [] [XmlEvent.Other] []).1,
   (C9_read_error_closes_route none none [] [XmlEvent.Other] []).2
     [(.OpeningElement, str "route"), (.ClosingElement, str "route")] (by decide)⟩

/-- **C1** (evidence for the code bug): a coordinates text with only two
comma-separated tokens is *not* treated as a numeric-parse failure: the split
yields 2 pieces and `data[2]` is indexed out of bounds, which panics (`none`
in the model) and aborts the whole pass, instead of dropping the placemark,
logging and continuing as the spec prescribes. -/
theorem C1_short_coordinates_panics :
    (coordsData (str "1.0,2.0")).length = 2 ∧
    handle_characters_event ⟨0, [], Dec.zero, Dec.zero, 0⟩ .ContentCoordinates false
        (str "1.0,2.0") none none = none := by decide

/-- **C6**: for every parsed altitude-in-meters value, the stored altitude
equals the spec formula `round((m * 3.280839895) / 100) * 100` as a
non-negative integer (over the exact-decimal model of `f64`), and in
particular the token `3800.2` converts to 12500 and `823` to 2700. -/
theorem C6_altitude_conversion :
    (∀ d : Dec, altitude_from_meters d = spec_altitude_feet d.toRat) ∧
      parseFloat (str "3800.2") = some ⟨38002, 1⟩ ∧
      altitude_from_meters ⟨38002, 1⟩ = 12500 ∧
      parseFloat (str "823") = some ⟨823, 0⟩ ∧
      altitude_from_meters ⟨823, 0⟩ = 2700 :=
  ⟨altitude_matches_spec, by decide, by decide, by decide, by decide⟩

/-- **C8** (evidence for the code bug): `ICAO/RUNWAY` codes decode as the
claim says (`SAEZ/11` gives identifier `SAEZ`, runway `11`), but a bare code
decodes to the initialization placeholder: `airport_decoder "SAEZ"` yields
identifier `"ICAO"` — the literal placeholder string — and no runway, not the
code itself as the claim states. -/
theorem C8_airport_decoder_behavior :
    airport_decoder (str "SAEZ/11") = ⟨str "SAEZ", some (str "11")⟩ ∧
      airport_decoder (str "SAEZ") = ⟨str "ICAO", none⟩ := by decide

/-- **C10**: the name normalizer is total — the checked (panic-modelling)
version always returns `some` — and returns the input unchanged when it has
no closing brace, otherwise the characters strictly after the first closing
brace and before the next closing brace if one exists (`\x7buri\x7da\x7db`
yields `a`, not `a\x7db`), i.e. everything after the sole brace when there is
exactly one. -/
theorem C10_name_normalizer (s : Str) :
    simplify_name_checked s = some (simplified_value s) ∧
      simplify_name s = simplified_value s :=
  ⟨simplify_name_checked_spec s, simplify_name_eq s⟩

/-- **C2** (counterexample): the claimed structure fails — the emitted
element list for a concrete committed waypoint (number 1, altitude 2700)
contains no altitude field between the `lat` field and the closing `wp`
element: any decomposition with a non-empty altitude field is impossible. -/
theorem C2_no_altitude_field :
    ¬ claimedWaypointShape ⟨1, str "EZE11", ⟨-58594239, 6⟩, ⟨-34811897, 6⟩, 2700⟩ := by
  rintro ⟨altField, hne, heq⟩
  have hlen := congrArg List.length heq
  have h14 : (write_waypoint
      ⟨1, str "EZE11", ⟨-58594239, 6⟩, ⟨-34811897, 6⟩, 2700⟩).length = 14 := by decide
  rw [h14] at hlen
  simp [fieldElement] at hlen
  exact hne hlen

/-- **C2** (amended): the emitted structure for a committed waypoint is the
`wp` opening (carrying ` n=<number>` exactly when the number is non-zero),
then the fields `type`, `ident`, `lon` (six decimal places), `lat` (six
decimal places) in that fixed order, followed directly by the closing `wp`
element — no altitude field is emitted. -/
theorem C2_waypoint_structure (w : Waypoint) :
    write_waypoint w =
      (.OpeningElement,
        str "wp" ++ (if w.number > 0 then str " n=" ++ natToStr w.number else [])) ::
        (fieldElement (str "type") (str " type=string") (str "basic") ++
         fieldElement (str "ident") (str " type=string") w.ident ++
         fieldElement (str "lon") (str " type=double") (format6 w.lon) ++
         fieldElement (str "lat") (str " type=double") (format6 w.lat) ++
         [(.ClosingElement, str "wp")]) := by
  have h1 : str "type" ++ str " type=string" = str "type type=string" := by decide
  have h2 : str "ident" ++ str " type=string" = str "ident type=string" := by decide
  have h3 : str "lon" ++ str " type=double" = str "lon type=double" := by decide
  have h4 : str "lat" ++ str " type=double" = str "lat type=double" := by decide
  simp [write_waypoint, fieldElement, h1, h2, h3, h4]

/-- **C7** (counterexample): with departure airport `SAEZ/11` and an empty
input stream the pipeline succeeds but the `route` container is empty — it
does not contain exactly one runway-type waypoint at slot 0 as claimed. -/
theorem C7_route_empty :
    (run_pipeline (some (str "SAEZ/11")) none []).isSome = true ∧
    routeContents ((run_pipeline (some (str "SAEZ/11")) none []).getD []) = [] := by decide

/-- **C7** (amended): with departure airport `SAEZ/11`, the output holds a
`departure` element (airport `SAEZ`, runway `11`) written before the `route`
container rather than as a waypoint inside it; the route container itself is
empty; and scanned placemarks are numbered from 0, not from 1: a single valid
`#FixMark` placemark commits with sequence number 0. -/
theorem C7_departure_outside_route :
    run_pipeline (some (str "SAEZ/11")) none []
        = some (write_start_of_tree ++
            [(.OpeningElement, str "departure"),
             (.OpeningElement, str "airport type=string"), (.Content, str "SAEZ"),
             (.ClosingElement, str "airport"),
             (.OpeningElement, str "runway type=string"), (.Content, str "11"),
             (.ClosingElement, str "runway"),
             (.ClosingElement, str "departure"),
             (.OpeningElement, str "route"), (.ClosingElement, str "route")] ++ close_tree) ∧
      (scan (some (airport_decoder (str "SAEZ/11"))) none initState
          [XmlEvent.StartElement (str "Placemark"), XmlEvent.StartElement (str "name"),
           XmlEvent.Characters (str "EZE11"), XmlEvent.EndElement (str "name"),
           XmlEvent.StartElement (str "styleUrl"), XmlEvent.Characters (str "#FixMark"),
           XmlEvent.EndElement (str "styleUrl"), XmlEvent.StartElement (str "coordinates"),
           XmlEvent.Characters (str "-58.594239,-34.811897,823"),
           XmlEvent.EndElement (str "coordinates"),
           XmlEvent.EndElement (str "Placemark")]).2.1.map Waypoint.number = [0] := by
  constructor
  · decide
  · decide

end KmlToFgfp
